import Mathlib

/-!
Shallow embedding of the interactive graph visualization component of the
Crux web application (src/frontend/components/graph/GraphVisualization.tsx).

The component owns four pieces of behavior, each embedded below:
* the graph data adapter that converts incoming nodes and edges into
  cytoscape elements (lines 54-64 of the source),
* the selection and highlight engine driven by tap events
  (lines 205-230), modelled as a transition system on a RenderState,
* the viewport controller: zoom in, zoom out and fit handlers
  (lines 250-268), with the zoom clamped to the configured
  minZoom and maxZoom range (lines 196-198),
* the reset handler (lines 270-281) and the mount guard for empty input
  (lines 50-51, 373-382).

Machine reals of the viewport are modelled as rationals; the open
attribute maps on node and edge data are dropped since no claim reads
them beyond the fields modelled here.
-/

namespace Crux

/-- Data of one incoming graph node (interface GraphNode, source lines
15-22).  The `type` field is required by the TypeScript interface but the
incoming JSON may omit it; a missing field is modelled as `none`. -/
structure NodeData where
  id : String
  label : String
  type : Option String
  deriving DecidableEq

/-- Wrapper matching the `data` envelope of the GraphNode interface. -/
structure GraphNode where
  data : NodeData
  deriving DecidableEq

/-- Data of one incoming graph edge (interface GraphEdge, source lines
24-31); `relationship` is optional for the same reason as `type`. -/
structure EdgeData where
  source : String
  target : String
  relationship : Option String
  deriving DecidableEq

/-- Wrapper matching the `data` envelope of the GraphEdge interface. -/
structure GraphEdge where
  data : EdgeData
  deriving DecidableEq

/-- One converted cytoscape node element: the original data together with
the classes string the adapter attaches (source lines 57-60). -/
structure NodeElement where
  data : NodeData
  classes : String
  deriving DecidableEq

/-- Case normalization `toLowerCase()`, as a character-wise map. -/
def lowercase (s : String) : String :=
  String.mk (s.data.map Char.toLower)

/-- Conversion of one node by the adapter (source line 57-60): the code
evaluates `n.data.type.toLowerCase()`.  When the `type` field is absent
the JavaScript expression reads `toLowerCase` of `undefined` and raises a
TypeError; the raised exception is modelled as `Except.error`. -/
def convertNode (n : GraphNode) : Except String NodeElement :=
  match n.data.type with
  | none => Except.error "TypeError: cannot read toLowerCase of undefined"
  | some t => Except.ok { data := n.data, classes := lowercase t }

/-- The node half of the cytoscape elements mapping (source lines 57-60):
`nodes.map(...)` evaluated left to right, propagating a raised
exception. -/
def adapterNodes (nodes : List GraphNode) : Except String (List NodeElement) :=
  nodes.mapM convertNode

/-- The edge half of the elements mapping (source lines 61-63): the data
is passed through unchanged. -/
def adapterEdges (edges : List GraphEdge) : List EdgeData :=
  edges.map GraphEdge.data

/-- A concrete input node whose required `type` field is missing. -/
def nodeMissingType : GraphNode :=
  { data := { id := "a", label := "A", type := none } }

/-- One edge of the instantiated cytoscape graph.  cytoscape assigns every
created edge an element id of its own; it is carried here as `eid` so that
edges can be members of the highlighted and faded element sets. -/
structure CyEdge where
  eid : String
  source : String
  target : String
  deriving DecidableEq

/-- The element collection of an instantiated cytoscape graph: the node
ids and the edges present after creation. -/
structure CyGraph where
  nodeIds : List String
  edges : List CyEdge
  deriving DecidableEq

/-- An element of the rendered graph: a node or an edge, named by id. -/
inductive Elem where
  | node (id : String)
  | edge (eid : String)
  deriving DecidableEq

/-- The elements of a node id list, as a finite set. -/
def nodeElems (ns : List String) : Finset Elem :=
  (ns.map Elem.node).toFinset

/-- The elements of an edge list, as a finite set. -/
def edgeElems (es : List CyEdge) : Finset Elem :=
  (es.map fun e => Elem.edge e.eid).toFinset

/-- `cy.elements()`: every element of the graph. -/
def CyGraph.allElems (g : CyGraph) : Finset Elem :=
  nodeElems g.nodeIds ∪ edgeElems g.edges

/-- `node.connectedEdges()` (source line 217): the edges having the given
node as source or target. -/
def CyGraph.connectedEdges (g : CyGraph) (n : String) : List CyEdge :=
  g.edges.filter fun e => e.source == n || e.target == n

/-- The endpoint node ids of a list of edges, as read by
`connectedEdges.connectedNodes()` (source line 218). -/
def endpoints (es : List CyEdge) : List String :=
  es.map CyEdge.source ++ es.map CyEdge.target

/-- The ephemeral interaction state of the component: the node data kept
in the `selectedNode` React state (reduced to its id) and the element sets
carrying the `highlighted` and `faded` classes. -/
structure RenderState where
  selectedNode : Option String
  highlighted : Finset Elem
  faded : Finset Elem
  deriving DecidableEq

/-- The idle state: no selection, no highlighted class, no faded class.
This is also the state right after mount (`useState(null)`, line 48, and
elements created without either class). -/
def idleState : RenderState :=
  { selectedNode := none, highlighted := ∅, faded := ∅ }

/-- The tap handler for nodes (source lines 205-223).  It stores the
tapped node, strips both classes from every element, and recomputes:
the connected edges and their endpoint nodes receive `highlighted`, and
every element other than the tapped node, the endpoint nodes and the
connected edges receives `faded`.  The prior state is discarded entirely
by the initial `removeClass` (line 215). -/
def tapNode (g : CyGraph) (n : String) (_s : RenderState) : RenderState :=
  let ce := g.connectedEdges n
  let ceE := edgeElems ce
  let cnE := nodeElems (endpoints ce)
  { selectedNode := some n
    highlighted := ceE ∪ cnE
    faded := g.allElems \ ({Elem.node n} ∪ cnE ∪ ceE) }

/-- The background tap handler (source lines 225-230): when the tap target
is the core itself, both classes are stripped everywhere and the selected
node is cleared. -/
def tapBackground (_s : RenderState) : RenderState :=
  idleState

/-- The render-state effect of handleReset (source lines 270-281): both
classes are stripped from every element and the selected node is cleared;
the layout rerun it also triggers is modelled at the component level. -/
def resetRenderState (_s : RenderState) : RenderState :=
  idleState

/-- The interaction events that mutate RenderState. -/
inductive Event where
  | tapNode (n : String)
  | tapBackground
  | reset
  deriving DecidableEq

/-- An event is valid for a graph when a tapped node actually is one of
the graph nodes (the tap handler of line 205 only fires on nodes). -/
def Event.valid (g : CyGraph) : Event → Prop
  | .tapNode n => n ∈ g.nodeIds
  | .tapBackground => True
  | .reset => True

/-- One transition of the selection and highlight engine. -/
def step (g : CyGraph) (s : RenderState) : Event → RenderState
  | .tapNode n => tapNode g n s
  | .tapBackground => tapBackground s
  | .reset => resetRenderState s

/-- The state after a sequence of events, starting from the mount state. -/
def run (g : CyGraph) (es : List Event) : RenderState :=
  es.foldl (step g) idleState

/-- The highlighted set as the specification words it: the tapped node,
its incident edges, and the nodes those edges touch.  This is also the
closed neighborhood of the node among the graph elements. -/
def specHighlighted (g : CyGraph) (n : String) : Finset Elem :=
  {Elem.node n} ∪ edgeElems (g.connectedEdges n) ∪ nodeElems (endpoints (g.connectedEdges n))

/-- Notifications the component can send to its host through its props
(interface GraphVisualizationProps, source lines 33-38: the only callback
is onNodeClick). -/
inductive Notification where
  | nodeClick (id : String)
  | selectionCleared
  deriving DecidableEq

/-- What the tap-on-node handler emits (source lines 210-212): it invokes
onNodeClick with the tapped node when the callback prop is provided. -/
def tapNodeEmits (hasOnNodeClick : Bool) (n : String) : List Notification :=
  if hasOnNodeClick then [Notification.nodeClick n] else []

/-- What the background tap handler emits (source lines 225-230): the
handler strips classes and clears the internal React state, and invokes
no callback prop at all. -/
def tapBackgroundEmits : List Notification :=
  []

instance (g : CyGraph) (e : Event) : Decidable (e.valid g) :=
  match e with
  | .tapNode n => inferInstanceAs (Decidable (n ∈ g.nodeIds))
  | .tapBackground => inferInstanceAs (Decidable True)
  | .reset => inferInstanceAs (Decidable True)

/-- The faded set computed by the tap handler is exactly the complement
of the closed neighborhood of the tapped node, whether or not the node
has incident edges. -/
lemma tapNode_faded_eq (g : CyGraph) (n : String) (s : RenderState) :
    (tapNode g n s).faded = g.allElems \ specHighlighted g n := by
  simp only [tapNode, specHighlighted]
  congr 1
  ext x
  simp only [Finset.mem_union]
  tauto

/-- The highlighted set computed by the tap handler is contained in the
closed neighborhood of the tapped node. -/
lemma tapNode_highlighted_subset (g : CyGraph) (n : String) (s : RenderState) :
    (tapNode g n s).highlighted ⊆ specHighlighted g n := by
  simp only [tapNode, specHighlighted]
  intro x hx
  simp only [Finset.mem_union] at hx ⊢
  tauto

/-- A node with an incident edge appears among the endpoint nodes of its
connected edges. -/
lemma node_mem_endpoint_elems (g : CyGraph) (n : String)
    (h : g.connectedEdges n ≠ []) :
    Elem.node n ∈ nodeElems (endpoints (g.connectedEdges n)) := by
  obtain ⟨e, he⟩ := List.exists_mem_of_ne_nil _ h
  have hmem := he
  rw [CyGraph.connectedEdges, List.mem_filter] at hmem
  have hst : e.source = n ∨ e.target = n := by
    have := hmem.2
    simp only [Bool.or_eq_true, beq_iff_eq] at this
    exact this
  simp only [nodeElems, endpoints, List.mem_toFinset, List.mem_map, List.mem_append]
  rcases hst with hsrc | htgt
  · exact ⟨n, Or.inl ⟨e, he, hsrc⟩, rfl⟩
  · exact ⟨n, Or.inr ⟨e, he, htgt⟩, rfl⟩

/-- The invariant of the selection and highlight engine: highlighted and
faded are disjoint; with an active selection every element outside the
closed neighborhood of the selected node is faded; without a selection
both class sets are empty. -/
def SelInvariant (g : CyGraph) (s : RenderState) : Prop :=
  Disjoint s.highlighted s.faded ∧
  (∀ n, s.selectedNode = some n →
    ∀ x ∈ g.allElems, x ∉ specHighlighted g n → x ∈ s.faded) ∧
  (s.selectedNode = none → s.highlighted = ∅ ∧ s.faded = ∅)

lemma selInvariant_idle (g : CyGraph) : SelInvariant g idleState := by
  refine ⟨?_, ?_, ?_⟩
  · simp [idleState]
  · intro n hn
    simp [idleState] at hn
  · intro _
    exact ⟨rfl, rfl⟩

lemma selInvariant_tapNode (g : CyGraph) (n : String) (s : RenderState) :
    SelInvariant g (tapNode g n s) := by
  refine ⟨?_, ?_, ?_⟩
  · rw [Finset.disjoint_left]
    intro x hx hx2
    rw [tapNode_faded_eq, Finset.mem_sdiff] at hx2
    exact hx2.2 (tapNode_highlighted_subset g n s hx)
  · intro m hm x hxall hxspec
    have hnm : n = m := by
      simpa [tapNode] using hm
    rw [tapNode_faded_eq, Finset.mem_sdiff]
    exact ⟨hxall, hnm ▸ hxspec⟩
  · intro hnone
    simp [tapNode] at hnone

lemma selInvariant_step (g : CyGraph) (s : RenderState) (e : Event) :
    SelInvariant g (step g s e) := by
  cases e with
  | tapNode n => exact selInvariant_tapNode g n s
  | tapBackground => exact selInvariant_idle g
  | reset => exact selInvariant_idle g

lemma selInvariant_foldl (g : CyGraph) (es : List Event) :
    ∀ s : RenderState, SelInvariant g s →
      SelInvariant g (es.foldl (step g) s) := by
  induction es with
  | nil => intro s hs; exact hs
  | cons e es ih =>
      intro s _
      exact ih (step g s e) (selInvariant_step g s e)

/-- C1.  The claim is refuted by an isolated node: tapping the single
node of a one-node graph with no edges leaves the highlighted class set
empty, while the specification asks for the singleton of the node. -/
theorem tap_isolated_node_highlight_differs :
    (tapNode { nodeIds := ["a"], edges := [] } "a" idleState).highlighted ≠
      specHighlighted { nodeIds := ["a"], edges := [] } "a" := by
  decide

/-- C1 (amended).  For a node with at least one incident edge, the tap
handler produces exactly the highlighted set of the specification, the
node with its incident edges and their endpoint nodes, and fades exactly
the remaining elements.  (For an isolated node only the faded half holds:
the tapped node itself ends up in neither class.) -/
theorem tapNode_matches_spec (g : CyGraph) (n : String) (s : RenderState)
    (h : g.connectedEdges n ≠ []) :
    (tapNode g n s).highlighted = specHighlighted g n ∧
    (tapNode g n s).faded = g.allElems \ specHighlighted g n := by
  constructor
  · have hn := node_mem_endpoint_elems g n h
    apply Finset.Subset.antisymm (tapNode_highlighted_subset g n s)
    intro x hx
    simp only [specHighlighted, Finset.mem_union, Finset.mem_singleton] at hx
    simp only [tapNode, Finset.mem_union]
    rcases hx with (hx | hx) | hx
    · subst hx; exact Or.inr hn
    · exact Or.inl hx
    · exact Or.inr hx
  · exact tapNode_faded_eq g n s

/-- C1 witness. -/
theorem tapNode_matches_spec_witness :
    (CyGraph.connectedEdges { nodeIds := ["a", "b"], edges := [{ eid := "e0", source := "a", target := "b" }] } "a" ≠ []) ∧
    ((tapNode { nodeIds := ["a", "b"], edges := [{ eid := "e0", source := "a", target := "b" }] } "a" idleState).highlighted =
      specHighlighted { nodeIds := ["a", "b"], edges := [{ eid := "e0", source := "a", target := "b" }] } "a" ∧
    (tapNode { nodeIds := ["a", "b"], edges := [{ eid := "e0", source := "a", target := "b" }] } "a" idleState).faded =
      CyGraph.allElems { nodeIds := ["a", "b"], edges := [{ eid := "e0", source := "a", target := "b" }] } \
        specHighlighted { nodeIds := ["a", "b"], edges := [{ eid := "e0", source := "a", target := "b" }] } "a") :=
  ⟨by decide, tapNode_matches_spec _ "a" idleState (by decide)⟩

/-- C2.  Every state reachable from mount through node taps, background
taps and resets satisfies the invariant: highlighted and faded disjoint,
everything outside the closed neighborhood of an active selection faded,
and both sets empty when no selection is active. -/
theorem reachable_states_satisfy_invariant (g : CyGraph) (es : List Event)
    (h : ∀ e ∈ es, e.valid g) : SelInvariant g (run g es) := by
  clear h
  exact selInvariant_foldl g es idleState (selInvariant_idle g)

/-- C2 witness. -/
theorem reachable_states_satisfy_invariant_witness :
    (∀ e ∈ [Event.tapNode "a", Event.tapBackground, Event.tapNode "b"],
      e.valid { nodeIds := ["a", "b"], edges := [{ eid := "e0", source := "a", target := "b" }] }) ∧
    SelInvariant { nodeIds := ["a", "b"], edges := [{ eid := "e0", source := "a", target := "b" }] }
      (run { nodeIds := ["a", "b"], edges := [{ eid := "e0", source := "a", target := "b" }] }
        [Event.tapNode "a", Event.tapBackground, Event.tapNode "b"]) :=
  ⟨by decide, reachable_states_satisfy_invariant _ _ (by decide)⟩

/-- C3.  Evaluating the adapter at a node whose required type field is
missing: the mapping raises a TypeError instead of skipping the node. -/
theorem adapter_raises_on_missing_type :
    adapterNodes [nodeMissingType] =
      Except.error "TypeError: cannot read toLowerCase of undefined" := by
  rfl

/-- C4.  Tapping the same node twice yields a RenderState identical to
tapping it once, and the selection stays on that node rather than
toggling back to idle. -/
theorem repeat_tap_same_node_idempotent (g : CyGraph) (n : String)
    (s : RenderState) :
    tapNode g n (tapNode g n s) = tapNode g n s ∧
    (tapNode g n (tapNode g n s)).selectedNode = some n :=
  ⟨rfl, rfl⟩

/-- C5.  Selecting any node and then tapping the background returns the
RenderState to the exact idle value: no selection and both class sets
empty. -/
theorem background_tap_after_select_restores_idle (g : CyGraph) (n : String)
    (s : RenderState) :
    tapBackground (tapNode g n s) = idleState ∧
    idleState.selectedNode = none ∧
    idleState.highlighted = ∅ ∧ idleState.faded = ∅ :=
  ⟨rfl, rfl, rfl, rfl⟩

/-- C6.  The claim is refuted: the background tap handler emits no
selection-cleared notification; it invokes no callback prop at all. -/
theorem background_tap_emits_no_selection_cleared :
    Notification.selectionCleared ∉ tapBackgroundEmits := by
  decide

/-- C6 (amended).  The background tap clears highlighted and faded and
resets the selection to none, but emits nothing to the external listener:
the only callback of the props is onNodeClick and the handler does not
invoke it. -/
theorem background_tap_clears_without_notifying (s : RenderState) :
    tapBackground s = idleState ∧ tapBackgroundEmits = [] :=
  ⟨rfl, rfl⟩

/-- The minZoom configured at creation (source line 196). -/
def minZoom : ℚ := 3 / 10

/-- The maxZoom configured at creation (source line 197). -/
def maxZoom : ℚ := 3

/-- The zoom setter of the rendering library: a requested zoom level is
clamped into the configured [minZoom, maxZoom] range (cytoscape clamps
`cy.zoom(z)` to the range set at creation, here lines 196-197). -/
def setZoom (z : ℚ) : ℚ :=
  max minZoom (min maxZoom z)

/-- The bounding box of the rendered elements, in model coordinates. -/
structure BBox where
  x1 : ℚ
  y1 : ℚ
  x2 : ℚ
  y2 : ℚ
  deriving DecidableEq

/-- The viewport of the rendered graph: zoom factor and pan offset. -/
structure Viewport where
  zoom : ℚ
  pan : ℚ × ℚ
  deriving DecidableEq

/-- `cy.center()`: pans so that the midpoint of the element bounding box
sits at the midpoint of the container, at the current zoom. -/
def centerPan (container : ℚ × ℚ) (bb : BBox) (z : ℚ) : ℚ × ℚ :=
  ((container.1 - z * (bb.x1 + bb.x2)) / 2,
   (container.2 - z * (bb.y1 + bb.y2)) / 2)

/-- handleZoomIn (source lines 250-255): multiply the zoom factor by 1.2
through the clamping setter, then re-center. -/
def handleZoomIn (container : ℚ × ℚ) (bb : BBox) (v : Viewport) : Viewport :=
  let z := setZoom (v.zoom * (12 / 10))
  { zoom := z, pan := centerPan container bb z }

/-- handleZoomOut (source lines 257-262): multiply the zoom factor by 0.8
through the clamping setter, then re-center. -/
def handleZoomOut (container : ℚ × ℚ) (bb : BBox) (v : Viewport) : Viewport :=
  let z := setZoom (v.zoom * (8 / 10))
  { zoom := z, pan := centerPan container bb z }

/-- The padding passed to fit (source line 266). -/
def fitPadding : ℚ := 50

/-- handleFit (source lines 264-268): `cy.fit(undefined, 50)` chooses the
largest zoom, clamped to the configured range, at which the padded
bounding box of all elements fits the container, then centers on it. -/
def handleFit (container : ℚ × ℚ) (bb : BBox) (_v : Viewport) : Viewport :=
  let z := setZoom (min ((container.1 - 2 * fitPadding) / (bb.x2 - bb.x1))
    ((container.2 - 2 * fitPadding) / (bb.y2 - bb.y1)))
  { zoom := z, pan := centerPan container bb z }

/-- The two zoom operations of the controls. -/
inductive ZoomOp where
  | zoomIn
  | zoomOut
  deriving DecidableEq

/-- Apply one zoom operation to the viewport. -/
def applyZoomOp (container : ℚ × ℚ) (bb : BBox) (v : Viewport) :
    ZoomOp → Viewport
  | .zoomIn => handleZoomIn container bb v
  | .zoomOut => handleZoomOut container bb v

/-- Apply a sequence of zoom operations, left to right. -/
def applyZoomOps (container : ℚ × ℚ) (bb : BBox) (ops : List ZoomOp)
    (v : Viewport) : Viewport :=
  ops.foldl (applyZoomOp container bb) v

lemma setZoom_mem_range (z : ℚ) : minZoom ≤ setZoom z ∧ setZoom z ≤ maxZoom := by
  constructor
  · exact le_max_left minZoom (min maxZoom z)
  · rw [setZoom]
    apply max_le
    · rw [minZoom, maxZoom]; norm_num
    · exact min_le_left maxZoom z

lemma applyZoomOp_zoom_mem_range (container : ℚ × ℚ) (bb : BBox)
    (v : Viewport) (op : ZoomOp) :
    minZoom ≤ (applyZoomOp container bb v op).zoom ∧
    (applyZoomOp container bb v op).zoom ≤ maxZoom := by
  cases op with
  | zoomIn => exact setZoom_mem_range _
  | zoomOut => exact setZoom_mem_range _

/-- C7.  Starting from any zoom inside the configured range, every finite
sequence of zoom-in and zoom-out operations keeps the zoom factor within
[0.3, 3.0]: out-of-range requests clamp rather than error. -/
theorem zoom_stays_in_range (container : ℚ × ℚ) (bb : BBox)
    (ops : List ZoomOp) (v : Viewport)
    (h : minZoom ≤ v.zoom ∧ v.zoom ≤ maxZoom) :
    minZoom ≤ (applyZoomOps container bb ops v).zoom ∧
    (applyZoomOps container bb ops v).zoom ≤ maxZoom := by
  induction ops generalizing v with
  | nil => exact h
  | cons op ops ih =>
      exact ih (applyZoomOp container bb v op)
        (applyZoomOp_zoom_mem_range container bb v op)

/-- C7 witness. -/
theorem zoom_stays_in_range_witness :
    (minZoom ≤ (1 : ℚ) ∧ (1 : ℚ) ≤ maxZoom) ∧
    (minZoom ≤ (applyZoomOps (800, 600) { x1 := 0, y1 := 0, x2 := 100, y2 := 100 }
        [ZoomOp.zoomIn, ZoomOp.zoomIn, ZoomOp.zoomOut] { zoom := 1, pan := (0, 0) }).zoom ∧
      (applyZoomOps (800, 600) { x1 := 0, y1 := 0, x2 := 100, y2 := 100 }
        [ZoomOp.zoomIn, ZoomOp.zoomIn, ZoomOp.zoomOut] { zoom := 1, pan := (0, 0) }).zoom ≤ maxZoom) :=
  ⟨by rw [minZoom, maxZoom]; norm_num,
    zoom_stays_in_range (800, 600) { x1 := 0, y1 := 0, x2 := 100, y2 := 100 }
      [ZoomOp.zoomIn, ZoomOp.zoomIn, ZoomOp.zoomOut] { zoom := 1, pan := (0, 0) }
      (by rw [minZoom, maxZoom]; norm_num)⟩

/-- The state held by an instantiated graph: the element collection, the
interaction RenderState, the viewport, and the number of layout runs
performed so far (the initial creation runs the layout once). -/
structure CyState where
  graph : CyGraph
  render : RenderState
  viewport : Viewport
  layoutRuns : Nat
  deriving DecidableEq

/-- handleZoomIn on the instance: it touches only the viewport. -/
def zoomInOn (container : ℚ × ℚ) (bb : BBox) (c : CyState) : CyState :=
  { c with viewport := handleZoomIn container bb c.viewport }

/-- handleZoomOut on the instance: it touches only the viewport. -/
def zoomOutOn (container : ℚ × ℚ) (bb : BBox) (c : CyState) : CyState :=
  { c with viewport := handleZoomOut container bb c.viewport }

/-- handleFit on the instance: it touches only the viewport. -/
def fitOn (container : ℚ × ℚ) (bb : BBox) (c : CyState) : CyState :=
  { c with viewport := handleFit container bb c.viewport }

/-- handleReset on the instance (source lines 270-281): strip both
classes from every element, rerun the layout from random placement, and
clear the selected node. -/
def resetOn (c : CyState) : CyState :=
  { c with render := idleState, layoutRuns := c.layoutRuns + 1 }

/-- C8.  The claim is refuted: handleZoomIn is not idempotent away from
the clamp bounds; from zoom factor 1 a second zoom-in moves the factor
from 1.2 to 1.44. -/
theorem zoomIn_not_idempotent :
    handleZoomIn (800, 600) { x1 := 0, y1 := 0, x2 := 100, y2 := 100 }
        (handleZoomIn (800, 600) { x1 := 0, y1 := 0, x2 := 100, y2 := 100 }
          { zoom := 1, pan := (0, 0) }) ≠
      handleZoomIn (800, 600) { x1 := 0, y1 := 0, x2 := 100, y2 := 100 }
        { zoom := 1, pan := (0, 0) } := by
  intro hEq
  have hz := congrArg Viewport.zoom hEq
  simp only [handleZoomIn, setZoom, minZoom, maxZoom, min_def, max_def] at hz
  norm_num at hz

/-- C8 (amended).  Every viewport operation is independent of the
selection state: none of them reads or writes the RenderState, and their
viewport effect is unchanged under any replacement of the RenderState.
Fit is idempotent, since its result does not depend on the prior
viewport; zoom in and zoom out are not (they multiply again on each
call, except when clamped). -/
theorem viewport_ops_selection_independent_fit_idempotent
    (container : ℚ × ℚ) (bb : BBox) (c : CyState) (r : RenderState)
    (v : Viewport) :
    handleFit container bb (handleFit container bb v) = handleFit container bb v ∧
    (zoomInOn container bb c).render = c.render ∧
    (zoomOutOn container bb c).render = c.render ∧
    (fitOn container bb c).render = c.render ∧
    (zoomInOn container bb { c with render := r }).viewport =
      (zoomInOn container bb c).viewport ∧
    (zoomOutOn container bb { c with render := r }).viewport =
      (zoomOutOn container bb c).viewport ∧
    (fitOn container bb { c with render := r }).viewport =
      (fitOn container bb c).viewport :=
  ⟨rfl, rfl, rfl, rfl, rfl, rfl, rfl⟩

/-- Creation of the cytoscape instance from the adapted elements (source
lines 54-199): node ids are taken from the input data; an edge whose
source or target id is absent from the node set is skipped by the
library with a logged error; every created edge receives a generated
element id, modelled here by its position.  Creation runs the
cose-bilkent layout once. -/
def initCy (nodes : List GraphNode) (edges : List GraphEdge) : CyState :=
  let ids := nodes.map fun n => n.data.id
  let kept := (adapterEdges edges).filter fun e =>
    ids.contains e.source && ids.contains e.target
  { graph :=
      { nodeIds := ids
        edges := kept.enum.map fun p =>
          { eid := toString p.1, source := p.2.source, target := p.2.target } }
    render := idleState
    viewport := { zoom := 1, pan := (0, 0) }
    layoutRuns := 1 }

/-- The component state: the cytoscape ref, empty until an instance is
created (source lines 46-47). -/
structure ComponentState where
  cy : Option CyState
  deriving DecidableEq

/-- The mount effect (source lines 50-64): when the node list is empty it
returns before creating any instance and before any layout run; otherwise
it creates the instance from the adapted elements. -/
def mount (nodes : List GraphNode) (edges : List GraphEdge) : ComponentState :=
  if nodes.length = 0 then { cy := none } else { cy := some (initCy nodes edges) }

/-- Whether the empty-state block is rendered (source line 373). -/
def rendersEmptyState (nodes : List GraphNode) : Bool :=
  nodes.length == 0

/-- Layout runs performed by a component state. -/
def layoutRunsOf (s : ComponentState) : Nat :=
  match s.cy with
  | none => 0
  | some c => c.layoutRuns

/-- The zoom-in button handler at the component level (source lines
250-255): guarded by `if (cyRef.current)`, so with no instance it does
nothing. -/
def handleZoomInC (container : ℚ × ℚ) (bb : BBox) (s : ComponentState) :
    ComponentState :=
  match s.cy with
  | none => s
  | some c => { cy := some (zoomInOn container bb c) }

/-- The zoom-out button handler at the component level (source lines
257-262): guarded by `if (cyRef.current)`, so with no instance it does
nothing. -/
def handleZoomOutC (container : ℚ × ℚ) (bb : BBox) (s : ComponentState) :
    ComponentState :=
  match s.cy with
  | none => s
  | some c => { cy := some (zoomOutOn container bb c) }

/-- The fit button handler at the component level (source lines 264-268):
guarded by `if (cyRef.current)`, so with no instance it does nothing. -/
def handleFitC (container : ℚ × ℚ) (bb : BBox) (s : ComponentState) :
    ComponentState :=
  match s.cy with
  | none => s
  | some c => { cy := some (fitOn container bb c) }

/-- The reset button handler at the component level (source lines
270-281): guarded by `if (cyRef.current)`, so with no instance it does
nothing. -/
def handleResetC (s : ComponentState) : ComponentState :=
  match s.cy with
  | none => s
  | some c => { cy := some (resetOn c) }

/-- C9.  Mounting with an empty node list creates no graph instance and
runs no layout, the empty-state presentation is rendered, and every
viewport operation — zoom in, zoom out, fit to bounds, and also reset —
is a no-op on the mounted state: same state, no exception. -/
theorem empty_input_no_layout_viewport_noop (edges : List GraphEdge)
    (container : ℚ × ℚ) (bb : BBox) :
    (mount [] edges).cy = none ∧
    layoutRunsOf (mount [] edges) = 0 ∧
    rendersEmptyState [] = true ∧
    handleZoomInC container bb (mount [] edges) = mount [] edges ∧
    handleZoomOutC container bb (mount [] edges) = mount [] edges ∧
    handleFitC container bb (mount [] edges) = mount [] edges ∧
    handleResetC (mount [] edges) = mount [] edges :=
  ⟨rfl, rfl, rfl, rfl, rfl, rfl, rfl⟩

/-- C10.  Reset strips the highlighted and faded marks from every
element and clears the selected node, returning the RenderState to the
exact idle value whatever the prior selection was, while rerunning the
layout once more. -/
theorem reset_restores_idle_render (c : CyState) :
    (resetOn c).render = idleState ∧
    idleState.highlighted = ∅ ∧
    idleState.faded = ∅ ∧
    idleState.selectedNode = none ∧
    (resetOn c).layoutRuns = c.layoutRuns + 1 :=
  ⟨rfl, rfl, rfl, rfl, rfl⟩

end Crux
